import Mathlib

/-!
Verification of the demo HTTP service in `src/app/index.js`.

The service is a single-file Express application with two routes
(`GET /` and `GET /health`), a port read once at startup from the
`PORT` environment variable with a hardcoded default of 6969, and a
single `console.log` line emitted from the `app.listen` callback.
We shallowly embed the request handlers, the route table, the port
computation and the startup behavior, and prove the specified
properties about them.
-/

namespace DemoApp

/-- An inbound HTTP request as seen by a handler: method, path, and the
parts the handlers of this service never inspect (headers, query
string, body). -/
structure Request where
  method : String
  path : String
  headers : List (String × String)
  query : String
  body : String
deriving Repr, DecidableEq

/-- A response produced by a handler. `contentType` records the content
type explicitly set by the handler code (`none` when the handler sets
no content type, in which case the hosting framework supplies its own
default on the wire). -/
structure Response where
  status : Nat
  contentType : Option String
  body : String
deriving Repr, DecidableEq

/-- The fixed repository URL from the root handler:
`const url = 'https://github.com/KashifWajid/docker-k8s-helm-local-demo';` -/
def url : String := "https://github.com/KashifWajid/docker-k8s-helm-local-demo"

/-- The anchor element built by the root handler (template literal in the
source, with `url` interpolated into the `href` attribute). -/
def anchor : String :=
  "<a href=\"" ++ url ++ "\" target=\"_blank\" rel=\"noopener noreferrer\">" ++
    "App 1 : docker-k8s-helm-local-demo" ++ "</a>"

/-- Handler for `GET /`: `res.type('html').send(anchor)`. `res.type('html')`
sets the content type to `text/html`; `send` sets the body; the status
is the framework default 200 since the handler never changes it. The
request is never inspected. -/
def rootHandler (req : Request) : Response :=
  { status := 200, contentType := some "text/html", body := anchor }

/-- Handler for `GET /health`: `res.status(200).send('ok')`. The handler
sets status 200 and body `ok` and never sets a content type. The
request is never inspected. -/
def healthHandler (req : Request) : Response :=
  { status := 200, contentType := none, body := "ok" }

/-- The route table: the two `app.get` registrations, matched in
registration order. A request matches `app.get(p, h)` when its method
is GET and its path is `p`; anything else falls through (`none`). -/
def route (req : Request) : Option Response :=
  if req.method = "GET" ∧ req.path = "/" then some (rootHandler req)
  else if req.method = "GET" ∧ req.path = "/health" then some (healthHandler req)
  else none

/-- Modelled from the spec: the hosting framework's default "not found"
behavior for requests no registered route matches. This repository
registers no handler for such requests, so Express answers them itself
with its default 404 response; the spec fixes only that the status is
non-2xx (typically 404). -/
def frameworkNotFound (req : Request) : Response :=
  { status := 404, contentType := some "text/html",
    body := "Cannot " ++ req.method ++ " " ++ req.path }

/-- Full request dispatch: the matched handler's response, or the
framework's default not-found response when no route matches. -/
def handle (req : Request) : Response :=
  (route req).getD (frameworkNotFound req)

/-- The startup port computation:
`const port = process.env.PORT || 6969;`.
An environment variable is either unset (`undefined`, falsy) or a
string; JavaScript `||` yields its right operand exactly when the left
operand is falsy, and the only falsy string is the empty string. The
resulting port value is kept as a string; the numeric default is
rendered as its decimal literal. No parsing or validation occurs. -/
def portOf (envPORT : Option String) : String :=
  match envPORT with
  | none => "6969"
  | some s => if s = "" then "6969" else s

/-- The observable outcome of process startup. -/
structure StartState where
  listening : Bool
  boundPort : Option String
  logLines : List String
  exitCode : Option Nat
deriving Repr, DecidableEq

/-- Modelled from the spec (the bind/terminate mechanics live in the Node
runtime, not in this repository's source): `app.listen(port, cb)` makes
exactly one attempt to bind `portOf envPORT`, where `bindOk` says which
ports can currently be bound. On success the process is listening on
that port and the callback runs, emitting the single
`console.log` line; on failure the source installs no error handler,
so the runtime terminates the process with a non-zero exit status —
no retry and no fallback port is attempted. -/
def start (envPORT : Option String) (bindOk : String → Bool) : StartState :=
  let p := portOf envPORT
  if bindOk p then
    { listening := true, boundPort := some p,
      logLines := ["demo-app listening on port " ++ p], exitCode := none }
  else
    { listening := false, boundPort := none, logLines := [], exitCode := some 1 }

/-- C1: for every GET request to the path `/health`, the service's
handler returns a response with HTTP status 200 and body exactly the
literal text `ok`. -/
theorem health_ok (req : Request)
    (hm : req.method = "GET") (hp : req.path = "/health") :
    (handle req).status = 200 ∧ (handle req).body = "ok" := by
  simp [handle, route, hm, hp, healthHandler]

/-- Witness for C1 at a concrete GET /health request. -/
theorem health_ok_witness :
    (handle ⟨"GET", "/health", [("Accept", "text/plain")], "", ""⟩).status = 200 ∧
      (handle ⟨"GET", "/health", [("Accept", "text/plain")], "", ""⟩).body = "ok" :=
  health_ok ⟨"GET", "/health", [("Accept", "text/plain")], "", ""⟩ rfl rfl

/-- C2 counterexample: the PORT environment variable set to the empty
string is set, yet the service does not bind that value — it falls back
to the default 6969, contradicting "if PORT is set, the service binds
and responds on that port (and only that port, not the default)". -/
theorem port_set_counterexample :
    portOf (some "") = "6969" ∧ "" ≠ "6969" := by
  constructor
  · rfl
  · decide

/-- C2 (amended): if PORT is set to a non-empty string, the service binds
and responds on exactly that value (not the default when it differs);
if PORT is unset — or set to the empty string — the service binds the
documented default port 6969. -/
theorem port_selection (s : String) (bindOk : String → Bool)
    (hs : s ≠ "") (hb : bindOk s = true) (hd : bindOk "6969" = true) :
    (start (some s) bindOk).boundPort = some s ∧
      (start none bindOk).boundPort = some "6969" ∧
      (start (some "") bindOk).boundPort = some "6969" := by
  have hp : portOf (some s) = s := by simp [portOf, hs]
  refine ⟨?_, ?_, ?_⟩
  · simp [start, hp, hb]
  · simp [start, portOf, hd]
  · simp [start, portOf, hd]

/-- Witness for C2 (amended) with PORT set to 8081. -/
theorem port_selection_witness :
    (start (some "8081") (fun _ => true)).boundPort = some "8081" ∧
      (start none (fun _ => true)).boundPort = some "6969" ∧
      (start (some "") (fun _ => true)).boundPort = some "6969" :=
  port_selection "8081" (fun _ => true) (by decide) rfl rfl

/-- C3: for every GET request to the path `/`, the handler returns status
200, the content type `text/html`, and a body that is an anchor element
whose href attribute is the fixed repository URL and whose link text is
`App 1 : docker-k8s-helm-local-demo`. -/
theorem root_anchor (req : Request)
    (hm : req.method = "GET") (hp : req.path = "/") :
    (handle req).status = 200 ∧
      (handle req).contentType = some "text/html" ∧
      (handle req).body =
        "<a href=\"" ++ "https://github.com/KashifWajid/docker-k8s-helm-local-demo" ++
          "\" target=\"_blank\" rel=\"noopener noreferrer\">" ++
          "App 1 : docker-k8s-helm-local-demo" ++ "</a>" := by
  simp [handle, route, hm, hp, rootHandler, anchor, url]

/-- Witness for C3 at a concrete GET / request. -/
theorem root_anchor_witness :
    (handle ⟨"GET", "/", [], "", ""⟩).status = 200 ∧
      (handle ⟨"GET", "/", [], "", ""⟩).contentType = some "text/html" ∧
      (handle ⟨"GET", "/", [], "", ""⟩).body =
        "<a href=\"" ++ "https://github.com/KashifWajid/docker-k8s-helm-local-demo" ++
          "\" target=\"_blank\" rel=\"noopener noreferrer\">" ++
          "App 1 : docker-k8s-helm-local-demo" ++ "</a>" :=
  root_anchor ⟨"GET", "/", [], "", ""⟩ rfl rfl

/-- C4 counterexample: on a concrete GET /health request the handler sets
no content type at all (`res.status(200).send('ok')` never sets one),
so the response does not carry the content type `text/plain`. -/
theorem health_content_type_counterexample :
    (handle ⟨"GET", "/health", [], "", ""⟩).contentType = none ∧
      (handle ⟨"GET", "/health", [], "", ""⟩).contentType ≠ some "text/plain" := by
  constructor
  · rfl
  · decide

/-- C4 (amended): for every GET request to `/health` the handler sets no
content type; the content type on the wire is the hosting framework's
default for string bodies (`text/html` in Express), not `text/plain`. -/
theorem health_content_type (req : Request)
    (hm : req.method = "GET") (hp : req.path = "/health") :
    (handle req).contentType = none := by
  simp [handle, route, hm, hp, healthHandler]

/-- Witness for C4 (amended) at a concrete GET /health request. -/
theorem health_content_type_witness :
    (handle ⟨"GET", "/health", [], "q=1", ""⟩).contentType = none :=
  health_content_type ⟨"GET", "/health", [], "q=1", ""⟩ rfl rfl

/-- C5: failure to bind the configured port is the only intrinsic failure
mode: startup fails exactly when the configured port cannot be bound,
and then the process terminates with a non-zero exit status, not
listening, having bound nothing — even when every other port could
have been bound, so no retry or fallback port selection occurs. -/
theorem bind_failure_fatal (envPORT : Option String) (bindOk : String → Bool)
    (hfail : bindOk (portOf envPORT) = false)
    (hothers : ∀ q, q ≠ portOf envPORT → bindOk q = true) :
    (start envPORT bindOk).listening = false ∧
      (start envPORT bindOk).boundPort = none ∧
      (start envPORT bindOk).exitCode = some 1 ∧
      (∀ e : Option String, ∀ b : String → Bool,
        (start e b).exitCode ≠ none → b (portOf e) = false) := by
  refine ⟨?_, ?_, ?_, ?_⟩
  · simp [start, hfail]
  · simp [start, hfail]
  · simp [start, hfail]
  · intro e b h
    by_contra hb
    have hb' : b (portOf e) = true := by
      cases hx : b (portOf e) with
      | false => exact absurd hx hb
      | true => rfl
    simp [start, hb'] at h

/-- Witness for C5: every port except the configured default 6969 is
free, yet startup still terminates with exit code 1. -/
theorem bind_failure_fatal_witness :
    (start none (fun q => q ≠ "6969")).listening = false ∧
      (start none (fun q => q ≠ "6969")).boundPort = none ∧
      (start none (fun q => q ≠ "6969")).exitCode = some 1 ∧
      (∀ e : Option String, ∀ b : String → Bool,
        (start e b).exitCode ≠ none → b (portOf e) = false) :=
  bind_failure_fatal none (fun q => q ≠ "6969") (by decide)
    (by
      intro q hq
      simp [portOf] at hq
      simp [hq])

/-- C6: a request to any path other than `/` and `/health` matches no
registered route, and the framework's default response for it has
status 404, which is not a 2xx status. -/
theorem undefined_route_404 (req : Request)
    (h1 : req.path ≠ "/") (h2 : req.path ≠ "/health") :
    route req = none ∧ (handle req).status = 404 ∧
      ¬(200 ≤ (handle req).status ∧ (handle req).status < 300) := by
  have hr : route req = none := by
    simp [route, h1, h2]
  refine ⟨hr, ?_, ?_⟩
  · simp [handle, hr, frameworkNotFound]
  · simp [handle, hr, frameworkNotFound]

/-- Witness for C6 at the concrete request GET /nope. -/
theorem undefined_route_404_witness :
    route ⟨"GET", "/nope", [], "", ""⟩ = none ∧
      (handle ⟨"GET", "/nope", [], "", ""⟩).status = 404 ∧
      ¬(200 ≤ (handle ⟨"GET", "/nope", [], "", ""⟩).status ∧
          (handle ⟨"GET", "/nope", [], "", ""⟩).status < 300) :=
  undefined_route_404 ⟨"GET", "/nope", [], "", ""⟩ (by decide) (by decide)

/-- C7: on successful bind the service emits exactly one log line, and
that line states the listening port that was chosen. -/
theorem single_log_line (envPORT : Option String) (bindOk : String → Bool)
    (hb : bindOk (portOf envPORT) = true) :
    (start envPORT bindOk).logLines =
        ["demo-app listening on port " ++ portOf envPORT] ∧
      (start envPORT bindOk).logLines.length = 1 := by
  constructor
  · simp [start, hb]
  · simp [start, hb]

/-- Witness for C7 with PORT unset and the default port bindable. -/
theorem single_log_line_witness :
    (start none (fun _ => true)).logLines =
        ["demo-app listening on port " ++ portOf none] ∧
      (start none (fun _ => true)).logLines.length = 1 :=
  single_log_line none (fun _ => true) rfl

/-- C8: both route handlers are deterministic and stateless: any two GET
requests to the same defined route (`/` or `/health`) — whatever their
headers, query strings or bodies — receive identical responses,
because each response is computed from fixed constants only. -/
theorem handlers_deterministic (r1 r2 : Request)
    (hm1 : r1.method = "GET") (hm2 : r2.method = "GET")
    (hp : r1.path = r2.path) (hdef : r1.path = "/" ∨ r1.path = "/health") :
    handle r1 = handle r2 := by
  cases hdef with
  | inl h => simp [handle, route, hm1, hm2, h, ← hp, rootHandler]
  | inr h => simp [handle, route, hm1, hm2, h, ← hp, healthHandler]

/-- Witness for C8: two differing concrete GET /health requests receive
the same response. -/
theorem handlers_deterministic_witness :
    handle ⟨"GET", "/health", [("X-Req", "1")], "a=b", "ignored"⟩ =
      handle ⟨"GET", "/health", [], "", ""⟩ :=
  handlers_deterministic
    ⟨"GET", "/health", [("X-Req", "1")], "a=b", "ignored"⟩
    ⟨"GET", "/health", [], "", ""⟩ rfl rfl rfl (Or.inr rfl)

/-- C9 counterexample: PORT set to the string "0" does not fall back to
the default — "0" is a non-empty string, hence truthy in JavaScript,
so `process.env.PORT || 6969` yields "0" itself, contradicting the
claim that values coercing to a falsy number fall back to 6969. -/
theorem port_zero_counterexample :
    portOf (some "0") = "0" ∧ portOf (some "0") ≠ "6969" := by
  constructor
  · rfl
  · decide

/-- C9 (amended): if PORT is set to the empty string — the only falsy
string value — the service falls back to the default port 6969, as it
does when PORT is unset; any other value, including "0", is used
as-is with no integer parsing or validation. -/
theorem port_falsy_fallback (s : String) (hs : s ≠ "") :
    portOf (some "") = "6969" ∧ portOf none = "6969" ∧ portOf (some s) = s := by
  refine ⟨rfl, rfl, ?_⟩
  simp [portOf, hs]

/-- Witness for C9 (amended) at the value "0". -/
theorem port_falsy_fallback_witness :
    portOf (some "") = "6969" ∧ portOf none = "6969" ∧ portOf (some "0") = "0" :=
  port_falsy_fallback "0" (by decide)

/-- C10: for every request to a defined route the handler is total, never
failing and always answering status 200, whatever the request's
headers, query string or body. -/
theorem handlers_total_200 (req : Request)
    (hm : req.method = "GET") (hdef : req.path = "/" ∨ req.path = "/health") :
    (handle req).status = 200 := by
  cases hdef with
  | inl h => simp [handle, route, hm, h, rootHandler]
  | inr h => simp [handle, route, hm, h, healthHandler]

/-- Witness for C10 at a GET /health request with arbitrary-looking
headers, query string and body. -/
theorem handlers_total_200_witness :
    (handle ⟨"GET", "/health", [("X-Odd", "%%%"), ("Content-Length", "999")],
        "junk=###", "unexpected body"⟩).status = 200 :=
  handlers_total_200
    ⟨"GET", "/health", [("X-Odd", "%%%"), ("Content-Length", "999")],
      "junk=###", "unexpected body"⟩ rfl (Or.inr rfl)

end DemoApp
